import Mathlib

/-!
Shallow embedding of `src/ng/providers/irc.provider.js` (the `irc` factory):
the connection supervisor (`create` / `destroy`), the channel reconciler
(`syncChannels` / `joinChannels` / `leaveChannels`), the disconnect storm
suppressor (`onlyEmitDisconnectedOnce`), the disconnect / connect event
handlers, and the public delegation methods (`say` / `whisper` / `isMod`).

JavaScript values are embedded as follows: channel names, usernames,
messages and reasons are `String`; `settings.channels` is a `List String`;
a possibly-null client handle is an `Option Client`; the JS value
`badLogin : string|false` is an `Option String` (`none` stands for `false`);
calls made on a transport client are recorded as explicit `Op` values so
that theorems can count and order them.
-/

namespace Tc

/-- Channel identifiers (and usernames / messages) are strings, as in the JS. -/
abbrev Channel := String

/-- A call issued on a transport client (tmi.js), recorded for observation. -/
inductive Op where
  | join (channel : Channel)
  | part (channel : Channel)
  | connect
  | disconnect
  | removeAllListeners
  | say (channel message : String)
  | whisper (username message : String)
  | isMod (channel username : String)
  deriving DecidableEq

/-- The three client roles, the keys of `var clients = {read: null, write: null, whisper: null}`. -/
inductive Role where
  | read
  | write
  | whisper
  deriving DecidableEq

/-- The `settings.identity` record: `{username, password}`. -/
structure Identity where
  username : String
  password : String
  deriving DecidableEq

/-- The external `settings` object: `identity` and `channels`. -/
structure Settings where
  identity : Identity
  channels : List Channel
  deriving DecidableEq

/-- The public flags on the emitter `ee`: `ee.ready : boolean` and
`ee.badLogin : string|false`, the latter embedded as `Option String`
(`none` is the JS `false`). -/
structure EE where
  ready : Bool
  badLogin : Option String
  deriving DecidableEq

/-- A tmi.js client as far as this module observes it: the connection
grouping mode (`connection.random`, `"chat"` or `"group"`), the configured
channel list (`setts.channels`), the locally tracked joined channels
(`client.tcCurrentChannels`), and how many times `connect()` was requested
on it. -/
structure Client where
  connectionRandom : String
  channels : List Channel
  tcCurrentChannels : List Channel
  connectRequests : Nat
  deriving DecidableEq

/-- The `clients` table: one optional handle per role. -/
structure Clients where
  read : Option Client
  write : Option Client
  whisper : Option Client
  deriving DecidableEq

/-!
Channel reconciler, from `joinChannels` / `leaveChannels` / `syncChannels`.

`joinChannels(client)` iterates `settings.channels` in order; every channel
with `client.tcCurrentChannels.indexOf(channel) === -1` is joined
(`client.join(channel)`) and pushed onto `tcCurrentChannels`. The embedding
recurses over the settings list, threading `tcCurrentChannels`, and returns
the joined channels in issue order together with the updated list.
-/

/-- `joinChannels`: first argument is `settings.channels` (the part still to
be iterated), second is the current `tcCurrentChannels`. Returns
(channels joined, updated `tcCurrentChannels`). -/
def joinChannels : List Channel → List Channel → List Channel × List Channel
  | [], tc => ([], tc)
  | channel :: rest, tc =>
    if channel ∈ tc then
      joinChannels rest tc
    else
      let r := joinChannels rest (tc ++ [channel])
      (channel :: r.1, r.2)

/-- `leaveChannels(client)`: a backwards for-loop over `tcCurrentChannels`
(from the last index down to 0) that parts and splices out every channel
with `settings.channels.indexOf(channel) === -1`. Iterating backwards means
the element at the highest index is examined first, and a splice at index
`i` does not move elements at indices below `i`; hence the recursion below
processes the tail (the higher indices) before the head. Returns
(channels parted, in issue order; updated `tcCurrentChannels`). -/
def leaveChannels (settingsChannels : List Channel) : List Channel → List Channel × List Channel
  | [] => ([], [])
  | channel :: rest =>
    let r := leaveChannels settingsChannels rest
    if channel ∈ settingsChannels then
      (r.1, channel :: r.2)
    else
      (r.1 ++ [channel], r.2)

/-- Result of reconciling one client: channels joined (in order), channels
parted (in order), and the final `tcCurrentChannels`. -/
structure ClientSync where
  joins : List Channel
  parts : List Channel
  tcCurrentChannels : List Channel
  deriving DecidableEq

/-- The per-client body of `syncChannels`: `joinChannels(client)` first,
then `leaveChannels(client)` on the updated `tcCurrentChannels`. -/
def syncChannelsClient (settingsChannels tc : List Channel) : ClientSync :=
  ⟨(joinChannels settingsChannels tc).1,
    (leaveChannels settingsChannels (joinChannels settingsChannels tc).2).1,
    (leaveChannels settingsChannels (joinChannels settingsChannels tc).2).2⟩

/-- The transport calls issued while reconciling one client, in issue
order: all joins (made by `joinChannels`) precede all parts (made by
`leaveChannels`). -/
def syncOps (settingsChannels tc : List Channel) : List Op :=
  (syncChannelsClient settingsChannels tc).joins.map Op.join ++
    (syncChannelsClient settingsChannels tc).parts.map Op.part

/-!
Connection supervisor: `create()` and `destroy()`.
-/

/-- `client.connect()`: a fire-and-forget connect request, counted on the
client. -/
def Client.connect (c : Client) : Client :=
  { c with connectRequests := c.connectRequests + 1 }

/-- Per-role client settings: `angular.copy(clientSettings)` with the
whisper override `setts.connection.random = 'group'; setts.channels = []`;
the other roles keep `connection.random = 'chat'` and
`channels = settings.channels`. Returns (connection.random, channels). -/
def clientSettingsFor (settings : Settings) : Role → String × List Channel
  | .whisper => ("group", [])
  | _ => ("chat", settings.channels)

/-- The body of `_.forEach(clients, ...)` in `create` for one role: build
the client (`new tmi.client(setts)`), initialize `tcCurrentChannels` to
`angular.copy(setts.channels)`, and request `connect()` on it. -/
def buildClient (settings : Settings) (key : Role) : Client :=
  let s := clientSettingsFor settings key
  Client.connect
    { connectionRandom := s.1, channels := s.2,
      tcCurrentChannels := s.2, connectRequests := 0 }

/-- One iteration of the `_.forEach` in `destroy`: if the handle is live,
`removeAllListeners()`, `disconnect()`, and null the handle; otherwise
nothing. Returns the new handle and the calls issued. -/
def destroyClient (role : Role) : Option Client → Option Client × List (Role × Op)
  | some _ => (none, [(role, Op.removeAllListeners), (role, Op.disconnect)])
  | none => (none, [])

/-- `destroy()`: iterate the clients table in key order
(read, write, whisper). -/
def destroy (cs : Clients) : Clients × List (Role × Op) :=
  let r := destroyClient Role.read cs.read
  let w := destroyClient Role.write cs.write
  let h := destroyClient Role.whisper cs.whisper
  (⟨r.1, w.1, h.1⟩, r.2 ++ w.2 ++ h.2)

/-- `create()`: first `destroy()`, then `ee.badLogin = false`, then build
and connect one client per role (in key order). Event-handler attachment is
modelled separately (`dispatchReadDisconnected`, `onReadConnected`, the
suppressor machine). Returns the new clients table, the updated flags, and
the transport calls issued. -/
def create (settings : Settings) (cs : Clients) (ee : EE) :
    Clients × EE × List (Role × Op) :=
  let d := destroy cs
  let ee1 : EE := { ee with badLogin := none }
  let cs1 : Clients :=
    { read := some (buildClient settings Role.read)
    , write := some (buildClient settings Role.write)
    , whisper := some (buildClient settings Role.whisper) }
  (cs1, ee1, d.2 ++
    [(Role.read, Op.connect), (Role.write, Op.connect), (Role.whisper, Op.connect)])

/-- Either all three roles hold a live handle, or none does. -/
def allOrNone (cs : Clients) : Prop :=
  (cs.read.isSome ∧ cs.write.isSome ∧ cs.whisper.isSome) ∨
    (cs.read = none ∧ cs.write = none ∧ cs.whisper = none)

/-!
Read-session connection event handlers.
-/

/-- The `'disconnected'` handler attached in `create`: on the bad-login
reason, set `ee.badLogin` to the reason and clear the stored password; in
every case clear `ee.ready`. -/
def onReadDisconnectedCreate (reason : String) (ee : EE) (identity : Identity) :
    EE × Identity :=
  let s :=
    if reason = "Login unsuccessful." then
      ({ ee with badLogin := some reason }, { identity with password := "" })
    else (ee, identity)
  ({ s.1 with ready := false }, s.2)

/-- The `'disconnected'` handler attached by `attachBadLoginCheck` (inside
`onBadLogin(destroy)`): on the bad-login reason, set `ee.badLogin`, clear
the password, and invoke the callback (`destroy`). The `Nat` counts the
callback invocations made by this firing. -/
def attachBadLoginCheckHandler (reason : String) (ee : EE) (identity : Identity) :
    EE × Identity × Nat :=
  if reason = "Login unsuccessful." then
    ({ ee with badLogin := some reason }, { identity with password := "" }, 1)
  else (ee, identity, 0)

/-- Firing `'disconnected'` on the read client runs the attached handlers
in attachment order: the `create` handler first, then the bad-login check
(attached by `onBadLogin`, which runs after `create` at module setup).
Returns the flags, the identity, and how many times `destroy` was
invoked. -/
def dispatchReadDisconnected (reason : String) (ee : EE) (identity : Identity) :
    EE × Identity × Nat :=
  let a := onReadDisconnectedCreate reason ee identity
  attachBadLoginCheckHandler reason a.1 a.2

/-- The `'connected'` handler attached in `create`: `ee.ready = true` (and
nothing else). -/
def onReadConnected (ee : EE) : EE := { ee with ready := true }

/-!
Disconnect storm suppressor (`onlyEmitDisconnectedOnce`).
-/

/-- Transport-level connection events delivered on the read client. -/
inductive TransportEvent where
  | disconnected
  | connected
  deriving DecidableEq

/-- Listener state of `onlyEmitDisconnectedOnce`: whether the one-shot
`'disconnected'` listener is installed, and whether the one-shot
`'connected'` re-arm listener is installed. In every reachable state at
most one of the two is installed, so booleans are faithful. -/
structure SuppressorState where
  discArmed : Bool
  connArmed : Bool
  deriving DecidableEq

/-- `create` ends with a call to `onlyEmitDisconnectedOnce()`: the one-shot
`'disconnected'` listener is installed, no re-arm listener yet. -/
def suppressorInit : SuppressorState := ⟨true, false⟩

/-- One transport event. A `once` listener fires at most once and removes
itself: on `'disconnected'`, if armed, rebroadcast one outward
`'disconnected'` (counted) and install the one-shot `'connected'` re-arm;
on `'connected'`, if the re-arm is installed, it runs
`onlyEmitDisconnectedOnce` again. -/
def suppressorStep (s : SuppressorState) : TransportEvent → SuppressorState × Nat
  | .disconnected => if s.discArmed then (⟨false, true⟩, 1) else (s, 0)
  | .connected => if s.connArmed then (⟨true, false⟩, 0) else (s, 0)

/-- Run a sequence of transport events, summing the outward
`'disconnected'` emissions. -/
def suppressorRun (s : SuppressorState) : List TransportEvent → SuppressorState × Nat
  | [] => (s, 0)
  | e :: es =>
    let r := suppressorStep s e
    let r2 := suppressorRun r.1 es
    (r2.1, r.2 + r2.2)

/-!
`syncChannels` at the provider level, where `clients.read` / `clients.write`
may be null.
-/

/-- Reconciling one entry of `[clients.read, clients.write]` inside
`syncChannels`. On a null handle, the first property access
(`client.tcCurrentChannels`) raises a TypeError before any join or part is
issued: `joinChannels` dereferences it for each settings channel, and
`leaveChannels` reads `client.tcCurrentChannels.length` unconditionally, so
the error is raised even when `settings.channels` is empty. On a live
handle, `joinChannels` then `leaveChannels` run as above. -/
def syncClient (settingsChannels : List Channel) :
    Option Client → Except String (Client × List Op)
  | none => Except.error "TypeError: cannot read tcCurrentChannels of null"
  | some c =>
    let r := syncChannelsClient settingsChannels c.tcCurrentChannels
    Except.ok ({ c with tcCurrentChannels := r.tcCurrentChannels },
      r.joins.map Op.join ++ r.parts.map Op.part)

/-- `syncChannels()`: `[clients.read, clients.write].forEach(...)`. A
thrown TypeError propagates out of the forEach, so a failure on the read
entry stops the write entry from being processed. Returns the (possibly
partially) updated clients table, the calls issued before any throw, and
the raised error if one occurred. -/
def syncChannels (settingsChannels : List Channel) (cs : Clients) :
    Clients × List (Role × Op) × Option String :=
  match syncClient settingsChannels cs.read with
  | .error e => (cs, [], some e)
  | .ok (rc, rops) =>
    match syncClient settingsChannels cs.write with
    | .error e =>
      ({ cs with read := some rc }, rops.map (fun o => (Role.read, o)), some e)
    | .ok (wc, wops) =>
      ({ cs with read := some rc, write := some wc },
        rops.map (fun o => (Role.read, o)) ++ wops.map (fun o => (Role.write, o)),
        none)

/-!
Reference heap, for the aliasing question around
`clients[key].tcCurrentChannels = angular.copy(setts.channels)`.
-/

/-- A heap of channel-list cells; JS object references are indices into
it. -/
abbrev Heap := List (List Channel)

/-- Dereference (reads `[]` at a dangling index, which never occurs in the
theorems below). -/
def Heap.read (h : Heap) (r : Nat) : List Channel := h.getD r []

/-- Assign a new value through a reference. -/
def Heap.write (h : Heap) (r : Nat) (v : List Channel) : Heap := h.set r v

/-- Allocate a fresh cell. -/
def Heap.alloc (h : Heap) (v : List Channel) : Heap × Nat := (h ++ [v], h.length)

/-- `angular.copy(x)`: a deep copy, i.e. a freshly allocated cell holding
the same contents. -/
def angularCopy (h : Heap) (r : Nat) : Heap × Nat := Heap.alloc h (Heap.read h r)

/-- The initialization
`clients[key].tcCurrentChannels = angular.copy(setts.channels)`, where
`setts = angular.copy(clientSettings)` and `clientSettings.channels` holds
a reference to `settings.channels`: two copies in sequence, the result
referencing a cell independent of `settings.channels`. Returns the heap
and the reference stored in `tcCurrentChannels`. -/
def initTcCurrentChannels (h : Heap) (settingsChannelsRef : Nat) : Heap × Nat :=
  let s := angularCopy h settingsChannelsRef
  angularCopy s.1 s.2

/-!
Public delegation methods on `ee`.
-/

/-- `client.say(channel, message)`: the transport call issued. -/
def Client.say (_ : Client) (channel message : String) : Op :=
  Op.say channel message

/-- `client.whisper(username, message)`: the transport call issued. -/
def Client.whisper (_ : Client) (username message : String) : Op :=
  Op.whisper username message

/-- `client.isMod(channel, username)`: the transport call whose (opaque,
transport-determined) result is what the method returns. -/
def Client.isMod (_ : Client) (channel username : String) : Op :=
  Op.isMod channel username

/-- `ee.say`: `clients.write.say(channel, message)`; `none` when
`clients.write` is null (the JS dereferences null and has no defined
result). -/
def eeSay (cs : Clients) (channel message : String) : Option (Role × Op) :=
  cs.write.map fun c => (Role.write, c.say channel message)

/-- `ee.whisper`: `clients.whisper.whisper(username, message)`. -/
def eeWhisper (cs : Clients) (username message : String) : Option (Role × Op) :=
  cs.whisper.map fun c => (Role.whisper, c.whisper username message)

/-- `ee.isMod`: `return clients.write.isMod(channel, username)`. -/
def eeIsMod (cs : Clients) (channel username : String) : Option (Role × Op) :=
  cs.write.map fun c => (Role.write, c.isMod channel username)

/-!
Helper lemmas about the reconciler.
-/

/-- `joinChannels` only appends to `tcCurrentChannels`: the final list is
the initial one followed by the joined channels. -/
theorem joinChannels_snd (D tc : List Channel) :
    (joinChannels D tc).2 = tc ++ (joinChannels D tc).1 := by
  induction D generalizing tc with
  | nil => simp [joinChannels]
  | cons d rest ih =>
    by_cases h : d ∈ tc
    · simp [joinChannels, h, ih]
    · simp [joinChannels, h, ih (tc ++ [d])]

/-- A channel is joined exactly when it is desired but not currently
tracked. -/
theorem mem_joinChannels_fst (D tc : List Channel) (c : Channel) :
    c ∈ (joinChannels D tc).1 ↔ c ∈ D ∧ c ∉ tc := by
  induction D generalizing tc with
  | nil => simp [joinChannels]
  | cons d rest ih =>
    by_cases h : d ∈ tc
    · simp only [joinChannels, if_pos h, ih, List.mem_cons]
      constructor
      · rintro ⟨hc, hn⟩
        exact ⟨Or.inr hc, hn⟩
      · rintro ⟨hc, hn⟩
        rcases hc with rfl | hc
        · exact absurd h hn
        · exact ⟨hc, hn⟩
    · simp only [joinChannels, if_neg h, List.mem_cons, ih, List.mem_append,
        List.mem_singleton]
      by_cases hcd : c = d
      · subst hcd
        simp [h]
      · simp [hcd]

/-- No channel is joined twice. -/
theorem joinChannels_fst_nodup (D tc : List Channel) :
    (joinChannels D tc).1.Nodup := by
  induction D generalizing tc with
  | nil => simp [joinChannels]
  | cons d rest ih =>
    by_cases h : d ∈ tc
    · simp only [joinChannels, if_pos h]
      exact ih tc
    · simp only [joinChannels, if_neg h]
      refine List.nodup_cons.mpr ⟨?_, ih (tc ++ [d])⟩
      intro hmem
      rcases (mem_joinChannels_fst rest (tc ++ [d]) d).mp hmem with ⟨_, hn⟩
      exact hn (by simp)

/-- The channels parted by `leaveChannels` are exactly the tracked channels
missing from the settings, in reverse order (the loop runs backwards). -/
theorem leaveChannels_fst (D tc : List Channel) :
    (leaveChannels D tc).1 = (tc.filter fun c => decide (c ∉ D)).reverse := by
  induction tc with
  | nil => simp [leaveChannels]
  | cons c rest ih =>
    by_cases h : c ∈ D
    · simp [leaveChannels, h, ih, List.filter_cons]
    · simp [leaveChannels, h, ih, List.filter_cons]

/-- The channels kept by `leaveChannels` are exactly the tracked channels
still present in the settings, in order. -/
theorem leaveChannels_snd (D tc : List Channel) :
    (leaveChannels D tc).2 = tc.filter fun c => decide (c ∈ D) := by
  induction tc with
  | nil => simp [leaveChannels]
  | cons c rest ih =>
    by_cases h : c ∈ D
    · simp [leaveChannels, h, ih, List.filter_cons]
    · simp [leaveChannels, h, ih, List.filter_cons]

/-- Every channel joined by `joinChannels` is desired, so the subsequent
`leaveChannels` pass never parts it. -/
theorem joinChannels_fst_filter_not_mem (D tc : List Channel) :
    ((joinChannels D tc).1.filter fun c => decide (c ∉ D)) = [] := by
  refine List.filter_eq_nil_iff.mpr ?_
  intro c hc
  simpa using ((mem_joinChannels_fst D tc c).mp hc).1

/-- The parts issued by the full reconciliation of one client are the
initially tracked channels missing from the settings, in reverse order. -/
theorem syncChannelsClient_parts (D J : List Channel) :
    (syncChannelsClient D J).parts = (J.filter fun c => decide (c ∉ D)).reverse := by
  show (leaveChannels D (joinChannels D J).2).1 = _
  rw [leaveChannels_fst, joinChannels_snd, List.filter_append,
    joinChannels_fst_filter_not_mem, List.append_nil]

/-!
Claim theorems.
-/

/-- Claim C1, counterexample: the claim quantifies over every tracked
joined-channel list `J`; with the duplicated list `J = ["c", "c"]` and
desired list `D = []`, the backwards `leaveChannels` loop parts `"c"` twice
— a duplicate part, and 2 part operations where the set difference
`J \ D` has cardinality 1. -/
theorem C1_counterexample :
    (syncChannelsClient [] ["c", "c"]).parts = ["c", "c"] ∧
      ¬ (syncChannelsClient [] ["c", "c"]).parts.Nodup ∧
      (syncChannelsClient [] ["c", "c"]).parts.length ≠
        ((["c", "c"] : List Channel).toFinset \
          (([] : List Channel).toFinset)).card := by
  decide

/-- Claim C1 (amended: the tracked joined-channel list `J` is
duplicate-free): for every desired channel list `D` and every
duplicate-free tracked list `J`, the per-client reconciliation terminates
with the tracked list equal to `D` as a set, having issued exactly
`|D \ J|` join operations and `|J \ D|` part operations, with no duplicate
joins or parts. -/
theorem C1_reconcile (D J : List Channel) (hJ : J.Nodup) :
    (syncChannelsClient D J).tcCurrentChannels.toFinset = D.toFinset ∧
      (syncChannelsClient D J).joins.length = (D.toFinset \ J.toFinset).card ∧
      (syncChannelsClient D J).parts.length = (J.toFinset \ D.toFinset).card ∧
      (syncChannelsClient D J).joins.Nodup ∧
      (syncChannelsClient D J).parts.Nodup := by
  have hjoins : (syncChannelsClient D J).joins = (joinChannels D J).1 := rfl
  have hparts := syncChannelsClient_parts D J
  refine ⟨?_, ?_, ?_, ?_, ?_⟩
  · ext c
    show c ∈ (leaveChannels D (joinChannels D J).2).2.toFinset ↔ _
    simp only [leaveChannels_snd, List.mem_toFinset, List.mem_filter,
      joinChannels_snd, List.mem_append, mem_joinChannels_fst, decide_eq_true_eq]
    constructor
    · rintro ⟨_, hc⟩
      exact hc
    · intro hc
      by_cases hcJ : c ∈ J
      · exact ⟨Or.inl hcJ, hc⟩
      · exact ⟨Or.inr ⟨hc, hcJ⟩, hc⟩
  · rw [hjoins, ← List.toFinset_card_of_nodup (joinChannels_fst_nodup D J)]
    congr 1
    ext c
    simp [mem_joinChannels_fst]
  · rw [hparts, List.length_reverse,
      ← List.toFinset_card_of_nodup (hJ.filter _)]
    congr 1
    ext c
    simp
  · rw [hjoins]
    exact joinChannels_fst_nodup D J
  · rw [hparts, List.nodup_reverse]
    exact hJ.filter _

/-- Witness for C1: the amended theorem applied to the concrete desired
list `["a", "b"]` and duplicate-free tracked list `["b", "c"]`. -/
theorem C1_witness :
    (["b", "c"] : List Channel).Nodup ∧
      ((syncChannelsClient ["a", "b"] ["b", "c"]).tcCurrentChannels.toFinset =
          (["a", "b"] : List Channel).toFinset ∧
        (syncChannelsClient ["a", "b"] ["b", "c"]).joins.length =
          ((["a", "b"] : List Channel).toFinset \
            (["b", "c"] : List Channel).toFinset).card ∧
        (syncChannelsClient ["a", "b"] ["b", "c"]).parts.length =
          ((["b", "c"] : List Channel).toFinset \
            (["a", "b"] : List Channel).toFinset).card ∧
        (syncChannelsClient ["a", "b"] ["b", "c"]).joins.Nodup ∧
        (syncChannelsClient ["a", "b"] ["b", "c"]).parts.Nodup) :=
  ⟨by decide, C1_reconcile ["a", "b"] ["b", "c"] (by decide)⟩

/-- Claim C4, counterexample: for a session joined to `[b, c]` with desired
`[a, b]`, the reconciler does not issue `part(c)` before `join(a)` —
`syncChannels` runs `joinChannels` first, so the issued sequence is
`[join a, part c]`. -/
theorem C4_counterexample :
    syncOps ["a", "b"] ["b", "c"] ≠ [Op.part "c", Op.join "a"] := by
  decide

/-- Claim C4 (amended: the operation order is join first, then part): for a
session joined to `[b, c]` with desired `[a, b]`, reconciliation issues
`join(a)` and then `part(c)`, and the resulting joined-channel set is
`{a, b}`. -/
theorem C4_scenario :
    syncOps ["a", "b"] ["b", "c"] = [Op.join "a", Op.part "c"] ∧
      (syncChannelsClient ["a", "b"] ["b", "c"]).tcCurrentChannels = ["b", "a"] ∧
      (syncChannelsClient ["a", "b"] ["b", "c"]).tcCurrentChannels.toFinset =
        ({"a", "b"} : Finset Channel) := by
  decide

/-- Splitting a run of the suppressor machine at a list append. -/
theorem suppressorRun_append (s : SuppressorState) (xs ys : List TransportEvent) :
    suppressorRun s (xs ++ ys) =
      ((suppressorRun (suppressorRun s xs).1 ys).1,
        (suppressorRun s xs).2 + (suppressorRun (suppressorRun s xs).1 ys).2) := by
  induction xs generalizing s with
  | nil => simp [suppressorRun]
  | cons e es ih => simp [suppressorRun, ih, Nat.add_assoc]

/-- While the one-shot `'disconnected'` listener is spent (and the re-arm
listener pending), further disconnect notifications emit nothing. -/
theorem suppressorRun_disc_spent (m : Nat) :
    suppressorRun ⟨false, true⟩ (List.replicate m TransportEvent.disconnected) =
      (⟨false, true⟩, 0) := by
  induction m with
  | zero => rfl
  | succ k ih => simp [List.replicate_succ, suppressorRun, suppressorStep, ih]

/-- Claim C2: from the freshly armed state, any `N ≥ 1` consecutive
transport-level disconnect notifications produce exactly one outward
`'disconnected'` emission, and after a subsequent connect notification one
further disconnect produces exactly one more (total two). -/
theorem C2_suppressor (n : Nat) (hn : 1 ≤ n) :
    (suppressorRun suppressorInit (List.replicate n TransportEvent.disconnected)).2 = 1 ∧
      (suppressorRun suppressorInit
        (List.replicate n TransportEvent.disconnected ++
          [TransportEvent.connected, TransportEvent.disconnected])).2 = 2 := by
  obtain ⟨m, rfl⟩ : ∃ m, n = m + 1 := ⟨n - 1, (Nat.succ_pred_eq_of_pos hn).symm⟩
  constructor
  · simp [List.replicate_succ, suppressorRun, suppressorStep, suppressorInit,
      suppressorRun_disc_spent]
  · simp [List.replicate_succ, List.cons_append, suppressorRun_append,
      suppressorRun, suppressorStep, suppressorInit, suppressorRun_disc_spent]

/-- Witness for C2: three consecutive disconnects emit once; after a
connect, one more disconnect emits once more. -/
theorem C2_suppressor_witness :
    (suppressorRun suppressorInit (List.replicate 3 TransportEvent.disconnected)).2 = 1 ∧
      (suppressorRun suppressorInit
        (List.replicate 3 TransportEvent.disconnected ++
          [TransportEvent.connected, TransportEvent.disconnected])).2 = 2 :=
  C2_suppressor 3 (by decide)

/-- Claim C3: firing `'disconnected'` on the read session with reason
exactly `"Login unsuccessful."` sets `badLogin` to that reason, clears the
stored identity password, clears `ready`, and invokes `destroy` exactly
once (via the `onBadLogin` callback); any other reason only clears `ready`,
leaving `badLogin`, the password, and the username unchanged and invoking
`destroy` zero times. -/
theorem C3_readDisconnected (reason : String) (ee : EE) (identity : Identity) :
    dispatchReadDisconnected reason ee identity =
      if reason = "Login unsuccessful." then
        (⟨false, some reason⟩, ⟨identity.username, ""⟩, 1)
      else
        (⟨false, ee.badLogin⟩, identity, 0) := by
  by_cases h : reason = "Login unsuccessful."
  · simp [dispatchReadDisconnected, onReadDisconnectedCreate,
      attachBadLoginCheckHandler, h]
  · simp [dispatchReadDisconnected, onReadDisconnectedCreate,
      attachBadLoginCheckHandler, h]

/-- Claim C5, counterexample: the read-session `'connected'` handler does
not reset `badLogin` — firing it in a state with
`badLogin = "Login unsuccessful."` leaves that value in place. -/
theorem C5_counterexample :
    (onReadConnected ⟨false, some "Login unsuccessful."⟩).badLogin ≠ none := by
  decide

/-- Claim C5 (amended: the handler sets only `ready`): whenever the read
session reports a successful connection, the handler sets `ready` to true
and leaves `badLogin` unchanged (`badLogin` is reset to false only by
`create()`). -/
theorem C5_connected (ee : EE) :
    onReadConnected ee = ⟨true, ee.badLogin⟩ := rfl

/-- `destroy` always clears all three handles, whatever the current table
holds. -/
theorem destroy_fst (cs : Clients) : (destroy cs).1 = ⟨none, none, none⟩ := by
  obtain ⟨r, w, h⟩ := cs
  cases r <;> cases w <;> cases h <;> rfl

/-- Claim C6: `create()` leaves all three roles holding a live handle with
`connect()` requested exactly once on each, the read and write clients in
`"chat"` grouping mode with the settings channels, and the whisper client
in the distinct `"group"` mode with an empty channel list; `badLogin` is
reset; the connect requests are issued once per role after the initial
teardown; `destroy()` leaves no role with a handle; and both operations end
in an all-or-none table from any starting state. -/
theorem C6_sessionSetAtomic (settings : Settings) (cs : Clients) (ee : EE) :
    (create settings cs ee).1 =
      ⟨some ⟨"chat", settings.channels, settings.channels, 1⟩,
        some ⟨"chat", settings.channels, settings.channels, 1⟩,
        some ⟨"group", [], [], 1⟩⟩ ∧
      (create settings cs ee).2.1 = ⟨ee.ready, none⟩ ∧
      (create settings cs ee).2.2 =
        (destroy cs).2 ++
          [(Role.read, Op.connect), (Role.write, Op.connect),
            (Role.whisper, Op.connect)] ∧
      (destroy cs).1 = ⟨none, none, none⟩ ∧
      allOrNone (create settings cs ee).1 ∧ allOrNone (destroy cs).1 := by
  refine ⟨rfl, rfl, rfl, destroy_fst cs, Or.inl ⟨rfl, rfl, rfl⟩, ?_⟩
  rw [destroy_fst cs]
  exact Or.inr ⟨rfl, rfl, rfl⟩

/-- Claim C7, counterexample: with no live Session Set, a triggered
`syncChannels` is not error-free — it raises a TypeError by dereferencing
the null read handle. -/
theorem C7_counterexample :
    (syncChannels ["a"] ⟨none, none, none⟩).2.2 ≠ none := by
  decide

/-- Claim C7 (amended: the call fails instead of completing silently): with
no live Session Set, a triggered `syncChannels` issues no join or part
operations and leaves the clients table unchanged, but it aborts with a
TypeError (null handle dereference) rather than completing as a graceful
no-op. -/
theorem C7_noSessions (settingsChannels : List Channel) :
    syncChannels settingsChannels ⟨none, none, none⟩ =
      (⟨none, none, none⟩, [],
        some "TypeError: cannot read tcCurrentChannels of null") := rfl

/-- Claim C8: `destroy()` clears every handle; for each role holding a live
handle it issues `removeAllListeners` then `disconnect` (in table key
order) and for a role without a handle it issues nothing; on an empty table
it does nothing at all; and running it twice leaves exactly the state and
no further calls beyond running it once. -/
theorem C8_destroyIdempotent (cs : Clients) :
    (destroy cs).1 = ⟨none, none, none⟩ ∧
      (destroy cs).2 =
        ((if cs.read.isSome then
            [(Role.read, Op.removeAllListeners), (Role.read, Op.disconnect)]
          else []) ++
          (if cs.write.isSome then
            [(Role.write, Op.removeAllListeners), (Role.write, Op.disconnect)]
          else []) ++
          (if cs.whisper.isSome then
            [(Role.whisper, Op.removeAllListeners), (Role.whisper, Op.disconnect)]
          else [])) ∧
      destroy ⟨none, none, none⟩ = (⟨none, none, none⟩, []) ∧
      destroy (destroy cs).1 = ((destroy cs).1, []) := by
  refine ⟨destroy_fst cs, ?_, rfl, ?_⟩
  · obtain ⟨r, w, h⟩ := cs
    cases r <;> cases w <;> cases h <;> rfl
  · rw [destroy_fst cs]
    rfl

/-- Setting one cell of a list leaves every other index unchanged. -/
theorem getD_set_ne {α : Type} (l : List α) (i j : Nat) (v d : α) (hij : i ≠ j) :
    (l.set i v).getD j d = l.getD j d := by
  induction l generalizing i j with
  | nil => simp
  | cons a rest ih =>
    cases i with
    | zero =>
      cases j with
      | zero => exact absurd rfl hij
      | succ j => simp
    | succ i =>
      cases j with
      | zero => simp
      | succ j =>
        rw [List.set_cons_succ, List.getD_cons_succ, List.getD_cons_succ]
        exact ih i j fun e => hij (by rw [e])

/-- Reading the cell just appended to a heap. -/
theorem heap_read_append_singleton (h : Heap) (x : List Channel) :
    Heap.read (h ++ [x]) h.length = x := by
  induction h with
  | nil => rfl
  | cons a rest ih =>
    show Heap.read (a :: (rest ++ [x])) (rest.length + 1) = x
    rw [Heap.read, List.getD_cons_succ]
    exact ih

/-- Appending cells to a heap does not move existing cells. -/
theorem heap_read_append (h : Heap) (t : Heap) (r : Nat) (hr : r < h.length) :
    Heap.read (h ++ t) r = Heap.read h r := by
  induction h generalizing r with
  | nil => exact absurd hr (by simp)
  | cons a rest ih =>
    cases r with
    | zero => rfl
    | succ r =>
      show Heap.read (a :: (rest ++ t)) (r + 1) = Heap.read (a :: rest) (r + 1)
      rw [Heap.read, Heap.read, List.getD_cons_succ, List.getD_cons_succ]
      exact ih r (Nat.lt_of_succ_lt_succ hr)

/-- Claim C9: the `tcCurrentChannels` reference produced at client creation
is distinct from the `settings.channels` reference, initially holds the
same contents, and is unaffected by any subsequent assignment through the
`settings.channels` reference. -/
theorem C9_tcIndependentCopy (h : Heap) (r : Nat) (v : List Channel)
    (hr : r < h.length) :
    (initTcCurrentChannels h r).2 ≠ r ∧
      Heap.read (initTcCurrentChannels h r).1 (initTcCurrentChannels h r).2 =
        Heap.read h r ∧
      Heap.read (Heap.write (initTcCurrentChannels h r).1 r v)
          (initTcCurrentChannels h r).2 =
        Heap.read (initTcCurrentChannels h r).1 (initTcCurrentChannels h r).2 := by
  have h2 : (initTcCurrentChannels h r).2 = h.length + 1 := by
    simp [initTcCurrentChannels, angularCopy, Heap.alloc]
  have h1 : (initTcCurrentChannels h r).1 =
      (h ++ [Heap.read h r]) ++ [Heap.read (h ++ [Heap.read h r]) h.length] := by
    simp [initTcCurrentChannels, angularCopy, Heap.alloc]
  refine ⟨by omega, ?_, ?_⟩
  · rw [h1, h2]
    have : ((h ++ [Heap.read h r]) : Heap).length = h.length + 1 := by simp
    rw [← this, heap_read_append_singleton, heap_read_append_singleton]
  · rw [h2, Heap.write, Heap.read, Heap.read, getD_set_ne]
    omega

/-- Witness for C9: a one-cell heap whose cell holds `["a"]`, overwritten
with `["b"]` through the settings reference. -/
theorem C9_witness :
    (0 : Nat) < ([["a"]] : Heap).length ∧
      ((initTcCurrentChannels [["a"]] 0).2 ≠ 0 ∧
        Heap.read (initTcCurrentChannels [["a"]] 0).1
            (initTcCurrentChannels [["a"]] 0).2 =
          Heap.read [["a"]] 0 ∧
        Heap.read (Heap.write (initTcCurrentChannels [["a"]] 0).1 0 ["b"])
            (initTcCurrentChannels [["a"]] 0).2 =
          Heap.read (initTcCurrentChannels [["a"]] 0).1
            (initTcCurrentChannels [["a"]] 0).2) :=
  ⟨by decide, C9_tcIndependentCopy [["a"]] 0 ["b"] (by decide)⟩

/-- Claim C10: with a live Session Set, `ee.say` invokes `say` on the write
client with the same channel and message, `ee.whisper` invokes `whisper` on
the whisper client with the same username and message, and `ee.isMod`
returns exactly the write client's `isMod` call on the same arguments; with
the corresponding handle absent, each method dereferences null and has no
defined result. -/
theorem C10_delegation (r : Option Client) (c cw : Client)
    (channel message username : String) :
    eeSay ⟨r, some c, some cw⟩ channel message =
      some (Role.write, Client.say c channel message) ∧
      eeWhisper ⟨r, some c, some cw⟩ username message =
        some (Role.whisper, Client.whisper cw username message) ∧
      eeIsMod ⟨r, some c, some cw⟩ channel username =
        some (Role.write, Client.isMod c channel username) ∧
      eeSay ⟨r, none, some cw⟩ channel message = none ∧
      eeWhisper ⟨r, some c, none⟩ username message = none ∧
      eeIsMod ⟨r, none, some cw⟩ channel username = none :=
  ⟨rfl, rfl, rfl, rfl, rfl, rfl⟩

end Tc
